import Mathlib

/-!
Shallow embedding of `lock_file.c` (and the second copy of the repository,
the `lock_request` variant) for the flock lock-helper program.

The embedding translates the program's pure control flow into executable
Lean functions.  OS effects (open, lockf, flock, kill, sleep, ftruncate,
write) are abstracted: their outcomes become boolean/functional inputs and
the calls performed become entries of an explicit `Action` trace, so that
the order and multiplicity of syscalls made by each code path is provable.
Machine integers are modelled as `Int`/`Nat`; the single place where C
integer truncation matters — the `(int)strtol(...)` cast in `unlock_file`
— is modelled explicitly by `toInt32`.
-/

namespace Flock

/-- SIGUSR1 on the target platform (Linux). -/
def SIGUSR1 : Nat := 10

/-- SIGUSR2 on the target platform (Linux). -/
def SIGUSR2 : Nat := 12

/-- `#define PARENT_TO SIGUSR1` -/
def PARENT_TO : Nat := SIGUSR1

/-- `#define CHILD_OK SIGUSR1` -/
def CHILD_OK : Nat := SIGUSR1

/-- `#define CHILD_FAIL SIGUSR2` -/
def CHILD_FAIL : Nat := SIGUSR2

/-- `#define UNLOCK SIGUSR2` -/
def UNLOCK : Nat := SIGUSR2

/-- `#define MAX_PID_LEN 10` -/
def MAX_PID_LEN : Nat := 10

/-- C `isspace` in the C locale: space (32), and 9..13 (tab, newline,
vertical tab, form feed, carriage return). `strtol` skips these. -/
def c_isSpace (c : Char) : Bool :=
  c.toNat = 32 || (9 ≤ c.toNat && c.toNat ≤ 13)

/-- ASCII decimal digit, as `strtol` base 10 recognises it. -/
def isDigitChar (c : Char) : Bool :=
  48 ≤ c.toNat && c.toNat ≤ 57

/-- Scan a maximal run of decimal digits, accumulating the value in base 10.
Returns (value, number of digits consumed, rest of the input). -/
def takeDigitsAux (a n : Nat) : List Char → Nat × Nat × List Char
  | [] => (a, n, [])
  | c :: cs =>
    if isDigitChar c then takeDigitsAux (a * 10 + (c.toNat - 48)) (n + 1) cs
    else (a, n, c :: cs)

/-- Base-10 `strtol` on a char list, returning the parsed value and the
rest of the input at the final `endptr` position.  Per C99: leading
whitespace is skipped, an optional sign is consumed, and when no digits
follow, `0` is returned with `endptr` reset to the start of the input.
A NUL byte embedded in the buffer acts as a terminator automatically,
because NUL is neither space, sign nor digit.  Overflow clamping to
LONG_MAX never fires here: the buffer read by `unlock_file` holds at most
`MAX_PID_LEN` = 10 digits, and 10^10 < LONG_MAX. -/
def strtol10 (s : List Char) : Int × List Char :=
  let t := s.dropWhile c_isSpace
  match t with
  | [] => (0, s)
  | c :: cs =>
    if c.toNat = 45 then
      let r := takeDigitsAux 0 0 cs
      if r.2.1 = 0 then (0, s) else (-(r.1 : Int), r.2.2)
    else if c.toNat = 43 then
      let r := takeDigitsAux 0 0 cs
      if r.2.1 = 0 then (0, s) else ((r.1 : Int), r.2.2)
    else
      let r := takeDigitsAux 0 0 (c :: cs)
      if r.2.1 = 0 then (0, s) else ((r.1 : Int), r.2.2)

/-- The C cast `(int)` applied to a `long` value: two's-complement
truncation to 32 bits. -/
def toInt32 (v : Int) : Int :=
  let m := v % (2 ^ 32)
  if 2 ^ 31 ≤ m then m - 2 ^ 32 else m

/-- The byte (as a code point) that `*end` designates after `strtol`:
the head of the remaining input, or NUL (the zeroed tail of the
`pid_str[MAX_PID_LEN+1] = {0}` buffer) when the remainder is empty. -/
def char_end : List Char → Nat
  | [] => 0
  | c :: _ => c.toNat

/-- Models lines 189–193 of `unlock_file` in `lock_file.c`:

    if (read(fd, pid_str, MAX_PID_LEN) > 0) {
        pid = (int)strtol(pid_str, &end, 10);
        if (*end != '\x5cn' ... ) ...
    }

`content` is the byte content of the file; `read` fills the zeroed buffer
with its first `MAX_PID_LEN` bytes and returns their count, so `pid`
stays `0` when the file is empty.  After the parse, `pid` is zeroed
unless `*end` is NUL or the newline. -/
def read_pid (content : List Char) : Int :=
  if content = [] then 0
  else
    let r := strtol10 (content.take MAX_PID_LEN)
    let pid := toInt32 r.1
    if char_end r.2 ≠ 0 ∧ char_end r.2 ≠ 10 then 0 else pid

/-- The poll loop of `unlock_file` (lines 200–217 of `lock_file.c`):

    while (time++ < timeout ... timeout == 0) {
        if (kill(pid, SIGUSR2) < 0) break;
        if (!locked) break;
        usleep(1000+100);
    }

`timeout` here is already the multiplied budget (`timeoutSeconds * 10`);
`locked` is whether the initial `lockf(fd, F_TEST, 0)` probe reported the
file held; `killOk k` is whether the `k`-th signal send succeeds.  The
`fuel` argument bounds the modelled iterations (the C loop with
`timeout == 0` and ever-succeeding sends never exits; that shows up as
`none`).  Returns the final value of `time` and the number of signal
send attempts made. -/
def unlock_loop (fuel : Nat) (timeout : Nat) (locked : Bool) (killOk : Nat → Bool)
    (time attempts : Nat) : Option (Nat × Nat) :=
  match fuel with
  | 0 => none
  | Nat.succ fuel =>
    if time < timeout ∨ timeout = 0 then
      if killOk (time + 1) = false then some (time + 1, attempts + 1)
      else if locked = false then some (time + 1, attempts + 1)
      else unlock_loop fuel timeout locked killOk (time + 1) (attempts + 1)
    else some (time + 1, attempts)

/-- `unlock_file(filename, timeout, no_block)` from `lock_file.c`
(lines 164–226), with the OS outcomes abstracted: `openOk` is whether
`open(filename, O_RDONLY)` succeeds, `locked` whether the `F_TEST` probe
reports the file locked, `content` the file's bytes, `killOk` the
per-attempt outcome of `kill(pid, SIGUSR2)`.  Returns `none` when the
modelled loop runs out of fuel (the unbounded `timeout == 0` case), and
otherwise the pair of the process exit status and the list of pids the
SIGUSR2 sends were addressed to (one entry per attempt). -/
def unlock_file (openOk locked : Bool) (content : List Char) (timeout : Nat)
    (killOk : Nat → Bool) (fuel : Nat) : Option (Nat × List Int) :=
  if openOk = false then some (1, [])
  else
    let pid := read_pid content
    if pid = 0 then some (1, [])
    else
      match unlock_loop fuel (timeout * 10) locked killOk 0 0 with
      | none => none
      | some (time, attempts) =>
        some ((if time = timeout * 10 then 1 else 0), List.replicate attempts pid)

/-- The wait loop of `parent_loop` (lines 118–120 of `lock_file.c`):

    while (timeout == 0 || time++ < timeout) sleep(1);

under the assumption that no signal from the child is ever delivered
(signal delivery would terminate the process from inside the handler and
never return here).  Returns the number of completed sleep ticks, or
`none` when the modelled iterations exceed `fuel` (in particular the
`timeout == 0` loop never exits). -/
def parent_wait (fuel : Nat) (timeout time : Nat) : Option Nat :=
  match fuel with
  | 0 => none
  | Nat.succ fuel =>
    if timeout = 0 ∨ time < timeout then
      match parent_wait fuel timeout (time + 1) with
      | none => none
      | some n => some (n + 1)
    else some 0

/-- Result of a `parent_loop` run in which no child signal arrives:
how many ticks it slept, the signal it then sent, and its return value
(which `main` returns, so it is the Coordinator's exit status). -/
structure ParentResult where
  ticksSlept : Nat
  signalTarget : Int
  signalSig : Nat
  retval : Nat
  deriving DecidableEq, Repr

/-- `parent_loop(cpid, timeout)` from `lock_file.c` (lines 111–129), in
a run where no signal from the child is delivered: after the wait loop
exits it performs `kill(cpid, SIGUSR1)` and returns 0. -/
def parent_loop (cpid : Int) (timeout : Nat) (fuel : Nat) : Option ParentResult :=
  match parent_wait fuel timeout 0 with
  | none => none
  | some n => some ⟨n, cpid, SIGUSR1, 0⟩

/-- One abstracted OS action performed by the child process (or, for the
`lock_request` variant, by `lock_descriptor`).  Recording actions in a
trace lets the theorems speak about which syscalls a path performs, how
often, and in what order. -/
inductive Action where
  | openFile
  | lockfCall (noBlock : Bool)
  | flockCall (noBlock : Bool)
  | seekStart
  | truncate
  | writeBytes (s : List Char)
  | sendSignal (target : Int) (sig : Nat)
  | probe (target : Int)
  | sleepTick
  deriving DecidableEq, Repr

/-- The bytes `child_loop` leaves in the locked file:
`snprintf(pid_str, MAX_PID_LEN, "%i", pid)` writes at most
`MAX_PID_LEN - 1` characters of the decimal representation (the size
argument includes the terminating NUL), and
`write(fd, pid_str, strlen(pid_str))` then stores exactly those bytes
after the `ftruncate(fd, 0)`. -/
def pid_str (pid : Nat) : List Char :=
  (Nat.repr pid).toList.take (MAX_PID_LEN - 1)

/-- The idle loop at the end of `child_loop` (lines 77–79 of
`lock_file.c`):

    while (kill(script_pid, 0) == 0) sleep(1);

`alive k` is the outcome of the `k`-th liveness probe on the invoking
script's pid (true = signal 0 delivered, pid exists).  Produces the trace
of probe/sleep actions; `none` when the probes keep succeeding past
`fuel`. -/
def child_idle_trace (script_pid : Int) (alive : Nat → Bool) (k fuel : Nat) :
    Option (List Action) :=
  match fuel with
  | 0 => none
  | Nat.succ fuel =>
    if alive k then
      match child_idle_trace script_pid alive (k + 1) fuel with
      | none => none
      | some tr => some (Action.probe script_pid :: Action.sleepTick :: tr)
    else some [Action.probe script_pid]

/-- `child_loop(filename, ppid, script_pid, no_block)` from `lock_file.c`
(lines 23–86), with the OS outcomes abstracted: `openOk` is whether
`open(filename, O_CREAT|O_RDWR, 0700)` succeeds, `lockOk` whether the
`lockf(fd, F_TLOCK/F_LOCK, 0)` call succeeds, `alive` the liveness-probe
outcomes.  Returns the action trace and the function's return value
(the child's exit status), or `none` when the idle loop outruns `fuel`. -/
def child_loop (pid : Nat) (ppid script_pid : Int) (no_block : Bool)
    (openOk lockOk : Bool) (alive : Nat → Bool) (fuel : Nat) :
    Option (List Action × Nat) :=
  if openOk = false then
    some ([Action.openFile, Action.sendSignal ppid SIGUSR2], 1)
  else if lockOk = false then
    some ([Action.openFile, Action.lockfCall no_block, Action.sendSignal ppid SIGUSR2], 1)
  else
    match child_idle_trace script_pid alive 0 fuel with
    | none => none
    | some tr =>
      some ([Action.openFile, Action.lockfCall no_block, Action.seekStart,
             Action.truncate, Action.writeBytes (pid_str pid),
             Action.sendSignal ppid SIGUSR1] ++ tr, 1)

/-- The lock kinds of the `lock_request` variant (`enum l_type`). -/
inductive LType where
  | FLOCK
  | FCNTL
  | LOCKF
  deriving DecidableEq, Repr

/-- `lock_descriptor(req)` from the `lock_request` variant (part_000,
lines 33–55): `retval` starts at 1 and is set to 0 when the underlying
primitive fails; the `FCNTL` case falls straight through the `switch`
with no call and no change to `retval`.  `lockfOk`/`flockOk` are the
would-be outcomes of the respective OS calls.  Returns the actions
performed and the return value. -/
def lock_descriptor (ty : LType) (no_block : Bool) (lockfOk flockOk : Bool) :
    List Action × Nat :=
  match ty with
  | LType.LOCKF => ([Action.lockfCall no_block], if lockfOk then 1 else 0)
  | LType.FLOCK => ([Action.flockCall no_block], if flockOk then 1 else 0)
  | LType.FCNTL => ([], 1)

/-- `child_loop(req, ppid, script_pid)` from the `lock_request` variant
(part_000, lines 85–146): as `child_loop`, but the lock step goes through
`lock_descriptor` and fails when it returns 0. -/
def child_loop_p0 (pid : Nat) (ppid script_pid : Int) (ty : LType) (no_block : Bool)
    (openOk lockfOk flockOk : Bool) (alive : Nat → Bool) (fuel : Nat) :
    Option (List Action × Nat) :=
  if openOk = false then
    some ([Action.openFile, Action.sendSignal ppid SIGUSR2], 1)
  else
    let lr := lock_descriptor ty no_block lockfOk flockOk
    if lr.2 = 0 then
      some (Action.openFile :: lr.1 ++ [Action.sendSignal ppid SIGUSR2], 1)
    else
      match child_idle_trace script_pid alive 0 fuel with
      | none => none
      | some tr =>
        some (Action.openFile :: lr.1 ++
              [Action.seekStart, Action.truncate, Action.writeBytes (pid_str pid),
               Action.sendSignal ppid SIGUSR1] ++ tr, 1)

/-- What a signal-handler invocation does: terminate the process with an
exit code, or print a line and return. -/
inductive HandlerEffect where
  | exitWith (code : Nat)
  | logReturn
  deriving DecidableEq, Repr

/-- `child_sig_handler(sig)` (lines 88–105 of `lock_file.c`): `PARENT_TO`
exits 1, `UNLOCK` exits 0, anything else logs and returns. -/
def child_sig_handler (sig : Nat) : HandlerEffect :=
  if sig = PARENT_TO then HandlerEffect.exitWith 1
  else if sig = UNLOCK then HandlerEffect.exitWith 0
  else HandlerEffect.logReturn

/-- `parent_sig_handler(sig)` (lines 131–149 of `lock_file.c`): `CHILD_OK`
exits 0, `CHILD_FAIL` exits 1, anything else logs and returns. -/
def parent_sig_handler (sig : Nat) : HandlerEffect :=
  if sig = CHILD_OK then HandlerEffect.exitWith 0
  else if sig = CHILD_FAIL then HandlerEffect.exitWith 1
  else HandlerEffect.logReturn

/-- `sig_handler(sig)` (lines 154–159 of `lock_file.c`): dispatches on the
global `child` role flag. -/
def sig_handler (childFlag : Bool) (sig : Nat) : HandlerEffect :=
  if childFlag then child_sig_handler sig else parent_sig_handler sig

/-- The `no-block`/`timeout` configuration stage of `main` in
`lock_file.c` (lines 233, 252–257, 277–286): `timeout` is initialised to
`-1`; `-t` sets it to a validated non-negative value; then

    if (no_block && timeout >= 0) return 1;
    if (timeout == -1) timeout = 0;

The check precedes every `signal`, `fork` and `open` call, which the
`Except` shape records: `Except.error 1` is the exit status of a run that
performed no action at all.  On success the effective timeout is
returned. -/
def lockfile_main_config (timeoutArg : Option Nat) (no_block : Bool) : Except Nat Nat :=
  let timeout : Int := match timeoutArg with
    | some t => (t : Int)
    | none => -1
  if no_block = true ∧ 0 ≤ timeout then Except.error 1
  else Except.ok (if timeout = -1 then 0 else timeout.toNat)

/-- The same stage of `main` in the `lock_request` variant (part_000,
lines 304, 320–325, 357–366).  The only difference: `req` is initialised
with `= {0}`, so `req.timeout` starts at `0`, not `-1` (the later
`if (req.timeout == -1)` test is unreachable). -/
def part000_main_config (timeoutArg : Option Nat) (no_block : Bool) : Except Nat Nat :=
  let timeout : Int := match timeoutArg with
    | some t => (t : Int)
    | none => 0
  if no_block = true ∧ 0 ≤ timeout then Except.error 1
  else Except.ok (if timeout = -1 then 0 else timeout.toNat)

/-- The targets-and-signals subsequence of a trace. -/
def sends (tr : List Action) : List (Int × Nat) :=
  tr.filterMap fun a => match a with
    | Action.sendSignal t s => some (t, s)
    | _ => none

/-- Is the action an `open` call? -/
def isOpen (a : Action) : Bool :=
  match a with
  | Action.openFile => true
  | _ => false

/-- Is the action a lock-primitive call (`lockf` or `flock`)? -/
def isLockCall (a : Action) : Bool :=
  match a with
  | Action.lockfCall _ => true
  | Action.flockCall _ => true
  | _ => false

/-- Is the action a liveness probe? -/
def isProbe (a : Action) : Bool :=
  match a with
  | Action.probe _ => true
  | _ => false

/-- Is the action a sleep tick? -/
def isSleep (a : Action) : Bool :=
  match a with
  | Action.sleepTick => true
  | _ => false

/-!
Theorems for the claims.
-/

/-- C1: for a lock invocation with timeoutSeconds = 5 in which no signal
from the LockHolder is delivered, the Coordinator sleeps 5 ticks, sends
SIGUSR1 ("parent timed out") to the LockHolder — and then returns 0, so
the process exits with SUCCESS status, not the failure status 1 the claim
requires.  Evaluation of `parent_loop` at the failing input. -/
theorem spec_C1_parent_timeout_returns_zero :
    parent_loop 77 5 10 = some ⟨5, 77, SIGUSR1, 0⟩ := by
  rfl

/-- C2: an unlock of a genuinely locked file with timeoutSeconds = 1 in
which every SIGUSR2 send succeeds runs the poll loop through its whole
budget of 10 iterations — and then returns 0 (success), because the
post-increment leaves `time = 11` and the `time == timeout` test for the
"Timed out" branch compares it against 10.  The claim (and the spec)
require a nonzero timeout failure here.  Evaluation of `unlock_file` at
the failing input. -/
theorem spec_C2_unlock_budget_exhaustion_returns_zero :
    unlock_file true true [Char.ofNat 52, Char.ofNat 50] 1 (fun _ => true) 20 =
      some (0, List.replicate 10 42) := by
  rfl

/-- C4: `lock_file.c` rejects non-blocking mode exactly when a timeout
was explicitly supplied (timeout starts at the sentinel -1), but the
`lock_request` variant (part_000) initialises `req` with `= {0}`, so its
timeout starts at 0 and `no_block && timeout >= 0` also rejects
non-blocking mode with NO explicit timeout — contradicting the claim's
second half for that copy. -/
theorem spec_C4_noblock_timeout_check :
    lockfile_main_config (some 5) true = Except.error 1 ∧
    lockfile_main_config (some 0) true = Except.error 1 ∧
    lockfile_main_config none true = Except.ok 0 ∧
    lockfile_main_config none false = Except.ok 0 ∧
    part000_main_config none true = Except.error 1 := by
  exact ⟨rfl, rfl, rfl, rfl, rfl⟩

/-- C5: for the 10-digit pid 1234567890 the LockHolder truncates the file
and then writes only "123456789": `snprintf(pid_str, MAX_PID_LEN, ...)`
keeps at most MAX_PID_LEN - 1 = 9 characters, although the buffer
`pid_str[MAX_PID_LEN+1]` was sized for all 10 digits.  The file content
is therefore not the decimal representation of the pid, contradicting the
claim for pids with 10 digits.  Evaluation at the failing input. -/
theorem spec_C5_pid_write_truncated :
    pid_str 1234567890 =
      [Char.ofNat 49, Char.ofNat 50, Char.ofNat 51, Char.ofNat 52, Char.ofNat 53,
       Char.ofNat 54, Char.ofNat 55, Char.ofNat 56, Char.ofNat 57] ∧
    pid_str 1234567890 ≠ (Nat.repr 1234567890).toList ∧
    child_loop 1234567890 1 2 false true true (fun _ => false) 1 =
      some ([Action.openFile, Action.lockfCall false, Action.seekStart, Action.truncate,
             Action.writeBytes (pid_str 1234567890),
             Action.sendSignal 1 SIGUSR1, Action.probe 2], 1) := by
  refine ⟨by decide, by decide, rfl⟩

/-- C3 (counterexample): a LockHolder that has acquired the lock and whose
very first liveness probe reports the invoking script gone leaves the idle
loop — but `child_loop` then executes `return 1`, so the process exit
status is 1, not the success status the claim asserts. -/
theorem spec_C3_counterexample :
    Option.map Prod.snd (child_loop 5 1 2 false true true (fun _ => false) 1) = some 1 ∧
    (1 : Nat) ≠ 0 := by
  exact ⟨rfl, by decide⟩

/-- Termination and shape of the idle loop: if the first `n` liveness
probes (starting at index `k`) succeed and probe `k + n` fails, the loop
exits right at that probe, having made `n + 1` probes and `n` sleeps. -/
theorem child_idle_trace_spec (script_pid : Int) (alive : Nat → Bool) :
    ∀ (n k fuel : Nat), (∀ i, i < n → alive (k + i) = true) →
      alive (k + n) = false → n < fuel →
      ∃ tr, child_idle_trace script_pid alive k fuel = some tr ∧
        tr.countP isProbe = n + 1 ∧ tr.countP isSleep = n := by
  intro n
  induction n with
  | zero =>
    intro k fuel _ hdead hfuel
    match fuel, hfuel with
    | Nat.succ fuel, _ =>
      have hk : alive k = false := by simpa using hdead
      refine ⟨[Action.probe script_pid], ?_, ?_, ?_⟩
      · simp [child_idle_trace, hk]
      · simp [List.countP_cons, List.countP_nil, isProbe]
      · simp [List.countP_cons, List.countP_nil, isSleep]
  | succ n ih =>
    intro k fuel halive hdead hfuel
    match fuel, hfuel with
    | Nat.succ fuel, hfuel =>
      have hk : alive k = true := by simpa using halive 0 (Nat.succ_pos n)
      have h2 : ∀ i, i < n → alive (k + 1 + i) = true := by
        intro i hi
        have := halive (i + 1) (by omega)
        simpa [Nat.add_comm, Nat.add_assoc, Nat.add_left_comm] using this
      have h3 : alive (k + 1 + n) = false := by
        have : k + 1 + n = k + (n + 1) := by omega
        rw [this]; exact hdead
      obtain ⟨tr, htr, hp, hs⟩ := ih (k + 1) fuel h2 h3 (by omega)
      refine ⟨Action.probe script_pid :: Action.sleepTick :: tr, ?_, ?_, ?_⟩
      · simp [child_idle_trace, hk, htr]
      · simp [List.countP_cons, isProbe, hp]
      · simp [List.countP_cons, isSleep, hs]

/-- C3 (amended): for every LockHolder that has acquired the lock and
entered its idle loop, when the liveness probe on the invoking script's
pid first reports the script gone (probe `n`, after `n` successful
probes), the loop terminates at exactly that probe and the LockHolder
exits — with FAILURE status 1 (`child_loop` ends in `return 1`), not
with success. -/
theorem spec_C3_abandonment_exit_failure (pid : Nat) (ppid script_pid : Int)
    (no_block : Bool) (alive : Nat → Bool) (n fuel : Nat)
    (halive : ∀ i, i < n → alive i = true) (hdead : alive n = false) (hfuel : n < fuel) :
    ∃ tr, child_loop pid ppid script_pid no_block true true alive fuel = some (tr, 1) ∧
      tr.countP isProbe = n + 1 ∧ tr.countP isSleep = n := by
  obtain ⟨tr, htr, hp, hs⟩ :=
    child_idle_trace_spec script_pid alive n 0 fuel (by simpa using halive)
      (by simpa using hdead) hfuel
  refine ⟨[Action.openFile, Action.lockfCall no_block, Action.seekStart,
           Action.truncate, Action.writeBytes (pid_str pid),
           Action.sendSignal ppid SIGUSR1] ++ tr, ?_, ?_, ?_⟩
  · simp [child_loop, htr]
  · simp [List.countP_append, List.countP_cons, List.countP_nil, isProbe, hp]
  · simp [List.countP_append, List.countP_cons, List.countP_nil, isSleep, hs]

/-- Witness for C3's amended theorem at a concrete input: the script is
gone at the very first probe, the loop stops there, and the exit status
is 1. -/
theorem spec_C3_abandonment_witness :
    ∃ tr, child_loop 5 1 2 false true true (fun _ => false) 3 = some (tr, 1) ∧
      tr.countP isProbe = 1 ∧ tr.countP isSleep = 0 := by
  have h := spec_C3_abandonment_exit_failure 5 1 2 false (fun _ => false) 0 3
    (by intro i hi; omega) rfl (by decide)
  simpa using h

/-- C7: whenever the open fails, or the open succeeds and the lock attempt
fails (would-block included: `no_block` is arbitrary), `child_loop` sends
exactly one signal — SIGUSR2 (ChildLockFailed) to the Coordinator — and
returns 1 immediately; the open is attempted exactly once and the lock
primitive is called at most once, with no retry of either. -/
theorem spec_C7_child_failure_single_signal (pid : Nat) (ppid script_pid : Int)
    (no_block openOk lockOk : Bool) (alive : Nat → Bool) (fuel : Nat)
    (hfail : openOk = false ∨ lockOk = false) :
    ∃ tr, child_loop pid ppid script_pid no_block openOk lockOk alive fuel = some (tr, 1) ∧
      sends tr = [(ppid, SIGUSR2)] ∧
      tr.countP isOpen = 1 ∧ tr.countP isLockCall ≤ 1 := by
  by_cases ho : openOk = false
  · refine ⟨[Action.openFile, Action.sendSignal ppid SIGUSR2], ?_, ?_, ?_, ?_⟩
    · simp [child_loop, ho]
    · simp [sends, List.filterMap]
    · simp [List.countP_cons, List.countP_nil, isOpen]
    · simp [List.countP_cons, List.countP_nil, isLockCall]
  · have hl : lockOk = false := by tauto
    have ho2 : openOk = true := by simpa using ho
    refine ⟨[Action.openFile, Action.lockfCall no_block, Action.sendSignal ppid SIGUSR2],
      ?_, ?_, ?_, ?_⟩
    · simp [child_loop, ho2, hl]
    · simp [sends, List.filterMap]
    · simp [List.countP_cons, List.countP_nil, isOpen]
    · simp [List.countP_cons, List.countP_nil, isLockCall]

/-- Witness for C7 at a concrete input: open succeeds, the non-blocking
lock attempt would block, and the child signals ChildLockFailed once. -/
theorem spec_C7_witness :
    ∃ tr, child_loop 9 3 4 true true false (fun _ => true) 0 = some (tr, 1) ∧
      sends tr = [(3, SIGUSR2)] ∧
      tr.countP isOpen = 1 ∧ tr.countP isLockCall ≤ 1 :=
  spec_C7_child_failure_single_signal 9 3 4 true true false (fun _ => true) 0 (Or.inr rfl)

/-- C8: the shared handler realises exactly the role-dependent mapping —
parent role: SIGUSR1 exits 0 (success), SIGUSR2 exits 1 (failure); child
role: SIGUSR1 exits 1, SIGUSR2 exits 0; any other signal value is logged
and the handler returns without terminating, in either role. -/
theorem spec_C8_handler_role_map :
    sig_handler false SIGUSR1 = HandlerEffect.exitWith 0 ∧
    sig_handler false SIGUSR2 = HandlerEffect.exitWith 1 ∧
    sig_handler true SIGUSR1 = HandlerEffect.exitWith 1 ∧
    sig_handler true SIGUSR2 = HandlerEffect.exitWith 0 ∧
    ∀ (role : Bool) (sig : Nat), sig ≠ SIGUSR1 → sig ≠ SIGUSR2 →
      sig_handler role sig = HandlerEffect.logReturn := by
  refine ⟨rfl, rfl, rfl, rfl, ?_⟩
  intro role sig h1 h2
  cases role <;>
    simp [sig_handler, parent_sig_handler, child_sig_handler,
      PARENT_TO, UNLOCK, CHILD_OK, CHILD_FAIL, h1, h2]

/-- Witness for C8's unknown-signal clause: SIGTERM (15) is neither
SIGUSR1 nor SIGUSR2 and is logged and ignored in the child role. -/
theorem spec_C8_witness : sig_handler true 15 = HandlerEffect.logReturn :=
  spec_C8_handler_role_map.2.2.2.2 true 15 (by decide) (by decide)

/-- C9: `lock_descriptor` on a request of type FCNTL performs no lock
call at all and returns 1 (success), so the `lock_request` variant's
child proceeds exactly as after a successful lock: it writes its pid and
signals ChildLockedOK (SIGUSR1) to the Coordinator, with no lock-primitive
call anywhere in its trace. -/
theorem spec_C9_fcntl_no_lock (no_block lockfOk flockOk : Bool) (pid : Nat)
    (ppid script_pid : Int) (alive : Nat → Bool) (fuel : Nat)
    (hdead : alive 0 = false) (hfuel : 1 ≤ fuel) :
    lock_descriptor LType.FCNTL no_block lockfOk flockOk = ([], 1) ∧
    ∃ tr, child_loop_p0 pid ppid script_pid LType.FCNTL no_block true lockfOk flockOk
        alive fuel = some (tr, 1) ∧
      (ppid, SIGUSR1) ∈ sends tr ∧ tr.countP isLockCall = 0 := by
  refine ⟨rfl, ?_⟩
  match fuel, hfuel with
  | Nat.succ fuel, _ =>
    refine ⟨[Action.openFile, Action.seekStart, Action.truncate,
             Action.writeBytes (pid_str pid), Action.sendSignal ppid SIGUSR1,
             Action.probe script_pid], ?_, ?_, ?_⟩
    · simp [child_loop_p0, lock_descriptor, child_idle_trace, hdead]
    · simp [sends, List.filterMap]
    · simp [List.countP_cons, List.countP_nil, isLockCall]

/-- Witness for C9 at a concrete input. -/
theorem spec_C9_witness :
    lock_descriptor LType.FCNTL true false false = ([], 1) ∧
    ∃ tr, child_loop_p0 6 2 3 LType.FCNTL true true false false (fun _ => false) 1
        = some (tr, 1) ∧
      (2, SIGUSR1) ∈ sends tr ∧ tr.countP isLockCall = 0 :=
  spec_C9_fcntl_no_lock true false false 6 2 3 (fun _ => false) 1 rfl (by decide)

/-- The base-10 value of a digit string, exactly as `takeDigitsAux`
accumulates it. -/
def digitsVal (ds : List Char) : Nat :=
  ds.foldl (fun x c => x * 10 + (c.toNat - 48)) 0

/-- Facts about a decimal digit character needed to steer `strtol10`:
it is not whitespace, not a sign, and not NUL. -/
theorem digit_facts (c : Char) (h : isDigitChar c = true) :
    c_isSpace c = false ∧ c.toNat ≠ 45 ∧ c.toNat ≠ 43 ∧ c.toNat ≠ 0 := by
  simp only [isDigitChar, Bool.and_eq_true, decide_eq_true_eq] at h
  simp only [c_isSpace, Bool.or_eq_false_iff, Bool.and_eq_false_iff,
    decide_eq_false_iff_not]
  omega

/-- `takeDigitsAux` consumes exactly a maximal run of digits: on input
`ds ++ s` with `ds` all digits and `s` not starting with a digit, it
folds up `ds` and stops at `s`. -/
theorem takeDigitsAux_append (ds : List Char) :
    ∀ (s : List Char) (a n : Nat),
      (∀ c ∈ ds, isDigitChar c = true) →
      (∀ c t, s = c :: t → isDigitChar c = false) →
      takeDigitsAux a n (ds ++ s) =
        (ds.foldl (fun x c => x * 10 + (c.toNat - 48)) a, n + ds.length, s) := by
  induction ds with
  | nil =>
    intro s a n _ hs
    cases s with
    | nil => simp [takeDigitsAux]
    | cons c t =>
      have hc := hs c t rfl
      simp [takeDigitsAux, hc]
  | cons d ds ih =>
    intro s a n hds hs
    have hd : isDigitChar d = true := hds d (by simp)
    rw [List.cons_append]
    show takeDigitsAux a n (d :: (ds ++ s)) = _
    rw [takeDigitsAux, if_pos hd, ih s _ _ (fun c hc => hds c (by simp [hc])) hs]
    rw [List.foldl_cons, List.length_cons,
      show n + 1 + ds.length = n + (ds.length + 1) from by omega]

/-- `strtol10` on a buffer that starts with a nonempty maximal digit run
returns the run's value with `endptr` at the first non-digit. -/
theorem strtol10_digits (ds s : List Char) (hne : ds ≠ [])
    (hds : ∀ c ∈ ds, isDigitChar c = true)
    (hs : ∀ c t, s = c :: t → isDigitChar c = false) :
    strtol10 (ds ++ s) = ((digitsVal ds : Int), s) := by
  cases ds with
  | nil => exact absurd rfl hne
  | cons d ds2 =>
    have hd : isDigitChar d = true := hds d (by simp)
    obtain ⟨hsp, h45, h43, _⟩ := digit_facts d hd
    rw [List.cons_append]
    show strtol10 (d :: (ds2 ++ s)) = _
    rw [strtol10]
    simp only [List.dropWhile_cons, hsp, if_neg, Bool.false_eq_true, if_false]
    rw [if_neg h45, if_neg h43, ← List.cons_append,
      takeDigitsAux_append (d :: ds2) s 0 0 hds hs]
    have hlen : (d :: ds2).length ≠ 0 := by simp
    simp [hlen, digitsVal]

/-- On a natural value below 2^31, the C `(int)` cast is the identity. -/
theorem toInt32_nat_small (v : Nat) (h : v < 2 ^ 31) : toInt32 (v : Int) = v := by
  simp only [toInt32]
  have h32 : ((2 : Int) ^ 32) = 4294967296 := by norm_num
  have h31 : ((2 : Int) ^ 31) = 2147483648 := by norm_num
  rw [h32, h31]
  have hv : (v : Int) < 2147483648 := by exact_mod_cast (by omega : v < 2147483648)
  have hnn : (0 : Int) ≤ (v : Int) := Int.ofNat_nonneg v
  split <;> omega

/-- The pid parse of `unlock_file` on file content made of a nonempty
maximal digit run `ds` followed by `s`: the value of `ds` survives when
`*end` is NUL (s empty, thanks to the zeroed buffer) or a newline byte,
and is discarded to 0 otherwise. -/
theorem read_pid_digits (ds s : List Char) (hne : ds ≠ [])
    (hds : ∀ c ∈ ds, isDigitChar c = true)
    (hs : ∀ c t, s = c :: t → isDigitChar c = false)
    (hlen : ds.length + s.length ≤ MAX_PID_LEN) :
    read_pid (ds ++ s) =
      if char_end s ≠ 0 ∧ char_end s ≠ 10 then 0 else toInt32 (digitsVal ds) := by
  have hnonnil : ds ++ s ≠ [] := by
    cases ds with
    | nil => exact absurd rfl hne
    | cons d ds2 => simp
  have htake : (ds ++ s).take MAX_PID_LEN = ds ++ s := by
    apply List.take_of_length_le
    simpa using hlen
  rw [read_pid, if_neg hnonnil, htake, strtol10_digits ds s hne hds hs]

/-- C6 (counterexample): the file content "1", newline, "x" — digits
followed by a newline followed by a further byte — is NOT treated as "no
pid found": the parse accepts it (`*end` is the newline; the byte after
it is never examined), `read_pid` yields 1, and the unlock invocation
proceeds to send a SIGUSR2 to pid 1 instead of exiting 1 with no
signal. -/
theorem spec_C6_counterexample :
    read_pid ['1', '\n', 'x'] = 1 ∧ (1 : Int) ≠ 0 ∧
    unlock_file true false ['1', '\n', 'x'] 7 (fun _ => true) 30 = some (0, [1]) := by
  exact ⟨by decide, by decide, rfl⟩

/-- C6 (amended): for file content made of a nonempty maximal run of
digits `ds` (with a nonzero value) followed by trailing bytes `s`, the
pid parse succeeds exactly when `s` is empty (so `*end` is the buffer's
NUL) or the byte immediately after the digits is the newline (code 10) —
whatever follows that newline is not examined.  For any other trailing
byte the parse yields no pid and the invocation exits with status 1
without sending any signal. -/
theorem spec_C6_pid_parse_trailing (ds s : List Char) (hne : ds ≠ [])
    (hds : ∀ c ∈ ds, isDigitChar c = true)
    (hs : ∀ c t, s = c :: t → isDigitChar c = false)
    (hnul : ∀ c ∈ s, c.toNat ≠ 0)
    (hlen : ds.length + s.length ≤ MAX_PID_LEN)
    (hpos : 0 < digitsVal ds) (hsmall : digitsVal ds < 2 ^ 31) :
    read_pid (ds ++ s) =
      (if s = [] ∨ char_end s = 10 then (digitsVal ds : Int) else 0) ∧
    ((s = [] ∨ char_end s = 10) → read_pid (ds ++ s) ≠ 0) ∧
    (¬ (s = [] ∨ char_end s = 10) →
      ∀ (locked : Bool) (timeout : Nat) (killOk : Nat → Bool) (fuel : Nat),
        unlock_file true locked (ds ++ s) timeout killOk fuel = some (1, [])) := by
  have hr := read_pid_digits ds s hne hds hs hlen
  have hti := toInt32_nat_small (digitsVal ds) hsmall
  by_cases hC : s = [] ∨ char_end s = 10
  · have hcond : ¬ (char_end s ≠ 0 ∧ char_end s ≠ 10) := by
      rcases hC with h | h
      · subst h; simp [char_end]
      · simp [h]
    rw [if_neg hcond] at hr
    refine ⟨?_, ?_, ?_⟩
    · rw [hr, hti, if_pos hC]
    · intro _
      rw [hr, hti]
      exact_mod_cast (by omega : digitsVal ds ≠ 0)
    · intro h; exact absurd hC h
  · have hcond : char_end s ≠ 0 ∧ char_end s ≠ 10 := by
      push_neg at hC
      obtain ⟨h1, h2⟩ := hC
      cases s with
      | nil => exact absurd rfl h1
      | cons c t =>
        exact ⟨by simpa [char_end] using hnul c (by simp), by simpa [char_end] using h2⟩
    have hzero : read_pid (ds ++ s) = 0 := by rw [hr, if_pos hcond]
    refine ⟨by rw [hzero, if_neg hC], fun h => absurd h hC, ?_⟩
    intro _ locked timeout killOk fuel
    simp [unlock_file, hzero]

/-- Witness for C6's amended theorem: content "42" followed by a single
newline parses to 42. -/
theorem spec_C6_witness :
    read_pid (['4', '2'] ++ ['\n']) =
      (if ['\n'] = ([] : List Char) ∨ char_end ['\n'] = 10
       then (digitsVal ['4', '2'] : Int) else 0) ∧
    ((['\n'] = ([] : List Char) ∨ char_end ['\n'] = 10) →
      read_pid (['4', '2'] ++ ['\n']) ≠ 0) ∧
    (¬ (['\n'] = ([] : List Char) ∨ char_end ['\n'] = 10) →
      ∀ (locked : Bool) (timeout : Nat) (killOk : Nat → Bool) (fuel : Nat),
        unlock_file true locked (['4', '2'] ++ ['\n']) timeout killOk fuel = some (1, [])) :=
  spec_C6_pid_parse_trailing ['4', '2'] ['\n'] (by decide) (by decide)
    (by intro c t h; injection h with h1 h2; subst h1; decide)
    (by decide) (by decide) (by decide) (by decide)

/-- C10: the unlock pid validation only rejects a parsed value of 0 (or
bad trailing bytes): file content "-1" parses, via `strtol`, to the
accepted pid -1, and the poll loop then addresses its SIGUSR2 send to
that negative value — which POSIX `kill` interprets as a process group
(for -1: every process the caller may signal) rather than a single
holder pid.  Stated generally: whenever the parsed pid is negative the
loop's first send is addressed to it. -/
theorem spec_C10_negative_pid_accepted (content : List Char) (timeout fuel : Nat)
    (killOk : Nat → Bool) (hneg : read_pid content < 0) (hkill : killOk 1 = true)
    (hfuel : 1 ≤ fuel) :
    read_pid ['-', '1'] = -1 ∧
    unlock_file true false content timeout killOk fuel = some (0, [read_pid content]) := by
  refine ⟨by decide, ?_⟩
  have hne0 : read_pid content ≠ 0 := ne_of_lt hneg
  match fuel, hfuel with
  | Nat.succ fuel, _ =>
    rw [unlock_file, if_neg (by simp), if_neg hne0, unlock_loop,
      if_pos (by omega : 0 < timeout * 10 ∨ timeout * 10 = 0),
      if_neg (by simp [hkill]), if_pos rfl]
    simp only [List.replicate]
    rw [if_neg (by omega : ¬ (0 + 1 = timeout * 10))]

/-- Witness for C10 at the concrete content "-1". -/
theorem spec_C10_witness :
    read_pid ['-', '1'] = -1 ∧
    unlock_file true false ['-', '1'] 3 (fun _ => true) 1 =
      some (0, [read_pid ['-', '1']]) :=
  spec_C10_negative_pid_accepted ['-', '1'] 3 1 (fun _ => true) (by decide) rfl
    (by decide)

end Flock
